import Mathlib

/-!
Verification of the airgradient-influxdb ingestion service.

The development shallowly embeds the two Go source files (`handler.go` and
`main.go`) of the repository:

* JSON values are modelled by an inductive `Json`; JSON numbers are carried
  as exact rationals (the Go `float64` field is modelled at JSON-literal
  precision; float64 rounding and range are below the granularity of this
  model, as is full Unicode case folding of object keys, which is modelled
  by ASCII folding).
* `encoding/json` unmarshalling of the `airGradientData` struct is embedded
  by `decodeBody` / `setField`, following Go's semantics: a top-level JSON
  null is a no-op, any other non-object fails; field names match
  case-insensitively; a null field value is a no-op; a number with a
  fractional part, or outside the int64 range, fails for an `int` field;
  any other type mismatch fails; unknown keys are ignored; the untagged
  `Ts time.Time` field is matched by the key "ts" (case-insensitively) and
  its `UnmarshalJSON` is an external collaborator, abstracted as a
  `parseTs : Json → Option Nat` parameter (Go instants are modelled by Nat).
* `mainHandler` is embedded as a pure function from the body-read outcome,
  the mux path variable and the receipt time to the HTTP status, response
  body and list of enqueued points.
* `strings.Split(id, ":")` is embedded by `splitCols` on character lists.
* `InfluxConnect` and the startup part of `main` are embedded over a
  `Configuration` record mirroring the Go struct; Go `uint` arithmetic is
  Nat reduced modulo 2^64.
* The batch-writer goroutine's per-point conversion to an InfluxDB write is
  embedded by `toInfluxWrite` / `batchWriter`.
-/

namespace AirGradient

/-- JSON values as delivered by a successful parse of the request body. -/
inductive Json where
  | null : Json
  | bool (b : Bool) : Json
  | num (q : ℚ) : Json
  | str (s : String) : Json
  | arr (elems : List Json) : Json
  | obj (kvs : List (String × Json)) : Json

/-- The `airGradientData` struct of handler.go.  `Id` has JSON tag "-"
(never decoded from the body); `Ts` has no tag (decoded from a "ts"-named
key via `time.Time.UnmarshalJSON`); time instants are modelled by `Nat`. -/
structure airGradientData where
  Id : String
  Ts : Nat
  Wifi : Int
  C02 : Int
  PM01 : Int
  PM02 : Int
  PM10 : Int
  PM003 : Int
  TVOC : Int
  NOX : Int
  Temp : ℚ
  Hum : Int
deriving DecidableEq, Repr

/-- `var data airGradientData`: the Go zero value of the struct. -/
def zeroData : airGradientData :=
  { Id := "", Ts := 0, Wifi := 0, C02 := 0, PM01 := 0, PM02 := 0, PM10 := 0,
    PM003 := 0, TVOC := 0, NOX := 0, Temp := 0, Hum := 0 }

/-- ASCII lower-casing of one character (Go's field-name case folding,
restricted to ASCII; all schema tags are ASCII). -/
def asciiLower (c : Char) : Char :=
  if 'A' ≤ c ∧ c ≤ 'Z' then Char.ofNat (c.toNat + 32) else c

/-- An object key, case-folded for field matching. -/
def foldKey (k : String) : List Char :=
  k.data.map asciiLower

/-- Go int is 64-bit here. -/
def INT64_MIN : Int := -(2 ^ 63)

def INT64_MAX : Int := 2 ^ 63 - 1

/-- Unmarshalling one JSON value into an `int` struct field: null is a
no-op, an integral in-range number stores, anything else errors. -/
def decodeIntField (v : Json) (d : airGradientData) (set : Int → airGradientData) :
    Option airGradientData :=
  match v with
  | Json.null => some d
  | Json.num q =>
      if q.den = 1 ∧ INT64_MIN ≤ q.num ∧ q.num ≤ INT64_MAX then some (set q.num) else none
  | _ => none

/-- Unmarshalling one JSON value into the `float64` field: null is a no-op,
a number stores (at JSON-literal precision), anything else errors. -/
def decodeFloatField (v : Json) (d : airGradientData) (set : ℚ → airGradientData) :
    Option airGradientData :=
  match v with
  | Json.null => some d
  | Json.num q => some (set q)
  | _ => none

/-- Processing one key/value pair of the body object against the
`airGradientData` struct tags; unknown keys are ignored. -/
def setField (parseTs : Json → Option Nat) (d : airGradientData) (k : String) (v : Json) :
    Option airGradientData :=
  let key := foldKey k
  if key = "wifi".data then decodeIntField v d (fun n => { d with Wifi := n })
  else if key = "rco2".data then decodeIntField v d (fun n => { d with C02 := n })
  else if key = "pm01".data then decodeIntField v d (fun n => { d with PM01 := n })
  else if key = "pm02".data then decodeIntField v d (fun n => { d with PM02 := n })
  else if key = "pm10".data then decodeIntField v d (fun n => { d with PM10 := n })
  else if key = "pm003_count".data then decodeIntField v d (fun n => { d with PM003 := n })
  else if key = "tvoc_index".data then decodeIntField v d (fun n => { d with TVOC := n })
  else if key = "nox_index".data then decodeIntField v d (fun n => { d with NOX := n })
  else if key = "atmp".data then decodeFloatField v d (fun q => { d with Temp := q })
  else if key = "rhum".data then decodeIntField v d (fun n => { d with Hum := n })
  else if key = "ts".data then
    match v with
    | Json.null => some d
    | _ => (parseTs v).map (fun t => { d with Ts := t })
  else some d

/-- The decoder's walk over the object's key/value pairs, in order. -/
def decodeFields (parseTs : Json → Option Nat) :
    airGradientData → List (String × Json) → Option airGradientData
  | d, [] => some d
  | d, (k, v) :: rest =>
      match setField parseTs d k v with
      | none => none
      | some d2 => decodeFields parseTs d2 rest

/-- `json.Unmarshal(b, &data)` on a successfully parsed body: a JSON null
leaves the zero struct, an object is decoded field by field, any other
top-level value errors. -/
def decodeBody (parseTs : Json → Option Nat) : Json → Option airGradientData
  | Json.null => some zeroData
  | Json.obj kvs => decodeFields parseTs zeroData kvs
  | _ => none

/-- `strings.Split(s, ":")` on the character list of `s`. -/
def splitCols : List Char → List (List Char)
  | [] => [[]]
  | c :: rest =>
      if c = ':' then [] :: splitCols rest
      else
        match splitCols rest with
        | [] => [[c]]
        | g :: gs => (c :: g) :: gs

/-- Lines 52-58 of handler.go: the id path variable (absent ↦ `none`) is
split on ':'; with exactly two components the second is kept, otherwise the
sentinel "null". -/
def resolveInstanceId : Option String → String
  | none => "null"
  | some idSeg =>
      match splitCols idSeg.data with
      | [_, second] => ⟨second⟩
      | _ => "null"

/-- Outcome of reading and parsing the request body: `io.ReadAll` failed,
or the bytes were not valid JSON, or they parsed to a `Json` value. -/
inductive BodyResult where
  | readError : BodyResult
  | malformed : BodyResult
  | parsed (j : Json) : BodyResult

/-- What one invocation of the handler does: the HTTP status it writes, the
response body, and the points it sends on `dataChannel`. -/
structure HandlerOutcome where
  status : Nat
  body : String
  enqueued : List airGradientData
deriving DecidableEq, Repr

/-- `mainHandler` of handler.go as a pure function.  `parseTs` abstracts
`time.Time.UnmarshalJSON`; `now` is the receipt time `time.Now()`.
`http.Error` appends a newline to its message. -/
def mainHandler (parseTs : Json → Option Nat) (bodyRes : BodyResult)
    (idVar : Option String) (now : Nat) : HandlerOutcome :=
  match bodyRes with
  | BodyResult.readError =>
      { status := 400, body := "cannot read body\n", enqueued := [] }
  | BodyResult.malformed =>
      { status := 400, body := "failed to unmarshal\n", enqueued := [] }
  | BodyResult.parsed j =>
      match decodeBody parseTs j with
      | none => { status := 400, body := "failed to unmarshal\n", enqueued := [] }
      | some data =>
          { status := 200, body := "",
            enqueued := [{ data with Id := resolveInstanceId idVar, Ts := now }] }

/-- An InfluxDB field value: the Go `map[string]interface{}` holds ints and
one float64. -/
inductive FieldValue where
  | int (n : Int) : FieldValue
  | float (q : ℚ) : FieldValue
deriving DecidableEq, Repr

/-- One store write (`influx.NewPoint` then `writeAPI.WritePoint`). -/
structure InfluxWrite where
  measurement : String
  tags : List (String × String)
  fields : List (String × FieldValue)
  timestamp : Nat
deriving DecidableEq, Repr

/-- The body of the writer goroutine in main.go: one dequeued point becomes
one `influx.NewPoint` (fields listed in source order). -/
def toInfluxWrite (d : airGradientData) : InfluxWrite :=
  { measurement := "air_quality"
    tags := [("id", d.Id)]
    fields :=
      [("wifi", FieldValue.int d.Wifi),
       ("co2", FieldValue.int d.C02),
       ("pm1", FieldValue.int d.PM01),
       ("pm25", FieldValue.int d.PM02),
       ("pm10", FieldValue.int d.PM10),
       ("pm003", FieldValue.int d.PM003),
       ("tvoc", FieldValue.int d.TVOC),
       ("nox", FieldValue.int d.NOX),
       ("temp", FieldValue.float d.Temp),
       ("rel_humidity", FieldValue.int d.Hum)]
    timestamp := d.Ts }

/-- `for dataPoint := range dataCh { writeAPI.WritePoint(...) }`: the writes
produced for a sequence of dequeued points. -/
def batchWriter (points : List airGradientData) : List InfluxWrite :=
  points.map toInfluxWrite

/-- The `Server` struct of main.go. -/
structure Server where
  ListenAddr : String
deriving DecidableEq, Repr

/-- The `InfluxDB` struct of main.go.  `FlushInterval` is a Go `uint`
(64-bit): a value of the type is a Nat below 2^64, and arithmetic on it
wraps modulo 2^64. -/
structure InfluxDB where
  Address : String
  Username : String
  Password : String
  MeasurementPrefix : String
  Database : String
  RetentionPolicy : String
  Token : String
  Organization : String
  Bucket : String
  SkipVerifySsl : Bool
  FlushInterval : Nat
deriving DecidableEq, Repr

/-- The `Configuration` struct of main.go (fields `Server`, `InfluxDB`;
lower-cased here so the field names do not shadow the types). -/
structure Configuration where
  server : Server
  influxDB : InfluxDB
deriving DecidableEq, Repr

/-- 2^64: the modulus of Go `uint` arithmetic. -/
def UINT_MOD : Nat := 2 ^ 64

/-- The client options `InfluxConnect` sets: `SetFlushInterval` (in
milliseconds, a `uint`) and `SetTLSConfig`'s `InsecureSkipVerify`. -/
structure ClientOptions where
  flushIntervalMs : Nat
  insecureSkipVerify : Bool
deriving DecidableEq, Repr

/-- The observable configuration of the constructed store client:
`influx.NewClientWithOptions(address, auth, options)` and
`client.WriteAPI(organization, writeDest)`. -/
structure ClientState where
  address : String
  auth : String
  options : ClientOptions
  organization : String
  writeDest : String
deriving DecidableEq, Repr

/-- `InfluxWriteConfigError`: "must configure at least one of bucket or
database/retention policy". -/
inductive InfluxError where
  | writeConfigError : InfluxError
deriving DecidableEq, Repr

/-- The `auth` local of `InfluxConnect`: the token if set, else
"username:password" if both are set, else empty. -/
def influxAuth (config : Configuration) : String :=
  if config.influxDB.Token ≠ "" then config.influxDB.Token
  else if config.influxDB.Username ≠ "" ∧ config.influxDB.Password ≠ "" then
    config.influxDB.Username ++ ":" ++ config.influxDB.Password
  else ""

/-- The `writeDest` local of `InfluxConnect`: the bucket if set, else
"database/retentionPolicy" if both are set, else the configuration error. -/
def influxWriteDest (config : Configuration) : Option String :=
  if config.influxDB.Bucket ≠ "" then some config.influxDB.Bucket
  else if config.influxDB.Database ≠ "" ∧ config.influxDB.RetentionPolicy ≠ "" then
    some (config.influxDB.Database ++ "/" ++ config.influxDB.RetentionPolicy)
  else none

/-- `InfluxConnect` of main.go as a function from the configuration to the
constructed client state, or the configuration error.  The flush interval
defaults to 30 when zero, and `1000 * FlushInterval` is `uint`
multiplication (modulo 2^64). -/
def InfluxConnect (config : Configuration) : Except InfluxError ClientState :=
  match influxWriteDest config with
  | none => Except.error InfluxError.writeConfigError
  | some dest =>
      let flushInterval :=
        if config.influxDB.FlushInterval = 0 then 30 else config.influxDB.FlushInterval
      Except.ok
        { address := config.influxDB.Address
          auth := influxAuth config
          options :=
            { flushIntervalMs := 1000 * flushInterval % UINT_MOD
              insecureSkipVerify := config.influxDB.SkipVerifySsl }
          organization := config.influxDB.Organization
          writeDest := dest }

/-- How far `main` gets before the HTTP listener exists: a fatal exit while
loading the configuration, a fatal exit when `InfluxConnect` errors, or the
Serving state (client constructed, listener bound on the configured
address).  Only the `serving` state has a listener. -/
inductive StartupResult where
  | fatalConfigLoad : StartupResult
  | fatalInflux (e : InfluxError) : StartupResult
  | serving (client : ClientState) (listenAddr : String) : StartupResult
deriving DecidableEq, Repr

/-- The startup sequence of `main` (configuration loading itself is the
external collaborator viper, passed in as its outcome): load the
configuration, connect to InfluxDB, then bind the listener. -/
def mainStartup (configLoad : Except String Configuration) : StartupResult :=
  match configLoad with
  | Except.error _ => StartupResult.fatalConfigLoad
  | Except.ok config =>
      match InfluxConnect config with
      | Except.error e => StartupResult.fatalInflux e
      | Except.ok client => StartupResult.serving client config.server.ListenAddr

/-- `json.Marshal` of the recognized measurement fields of a decoded
struct: each schema tag with the stored value (ints exactly, the float at
the model's JSON-literal precision). -/
def encodeFields (d : airGradientData) : List (String × Json) :=
  [("wifi", Json.num d.Wifi),
   ("rco2", Json.num d.C02),
   ("pm01", Json.num d.PM01),
   ("pm02", Json.num d.PM02),
   ("pm10", Json.num d.PM10),
   ("pm003_count", Json.num d.PM003),
   ("tvoc_index", Json.num d.TVOC),
   ("nox_index", Json.num d.NOX),
   ("atmp", Json.num d.Temp),
   ("rhum", Json.num d.Hum)]

/-- The example request body of handler.go's comment and the spec's
end-to-end example. -/
def exampleBody : Json :=
  Json.obj
    [("wifi", Json.num (-64)), ("rco2", Json.num 419), ("pm01", Json.num 4),
     ("pm02", Json.num 7), ("pm10", Json.num 7), ("pm003_count", Json.num 834),
     ("tvoc_index", Json.num 3), ("nox_index", Json.num 2),
     ("atmp", Json.num (3207 / 100)), ("rhum", Json.num 56)]

/-- The point the example request enqueues when received at time `now`. -/
def examplePointAt (now : Nat) : airGradientData :=
  { Id := "office-1", Ts := now, Wifi := -64, C02 := 419, PM01 := 4, PM02 := 7,
    PM10 := 7, PM003 := 834, TVOC := 3, NOX := 2, Temp := 3207 / 100, Hum := 56 }

/-- `a` is representable as a Go `int` (64-bit). -/
def inInt64 (n : Int) : Prop := INT64_MIN ≤ n ∧ n ≤ INT64_MAX

instance (n : Int) : Decidable (inInt64 n) := by unfold inInt64; infer_instance

/-- A v1-style configuration (database and retention policy, no bucket). -/
def configV1 : Configuration :=
  { server := { ListenAddr := "0.0.0.0:19999" }
    influxDB :=
      { Address := "https://127.0.0.1:8086", Username := "myuser", Password := "mypass",
        MeasurementPrefix := "", Database := "mydb", RetentionPolicy := "autogen",
        Token := "", Organization := "", Bucket := "", SkipVerifySsl := false,
        FlushInterval := 30 } }

/-- A configuration with both token and username/password set. -/
def configBoth : Configuration :=
  { server := { ListenAddr := "0.0.0.0:19999" }
    influxDB :=
      { Address := "https://127.0.0.1:8086", Username := "myuser", Password := "mypass",
        MeasurementPrefix := "", Database := "", RetentionPolicy := "",
        Token := "mytoken", Organization := "myorg", Bucket := "mybucket",
        SkipVerifySsl := false, FlushInterval := 30 } }

/-- A configuration whose flush interval is the largest Go uint. -/
def configFlushMax : Configuration :=
  { server := { ListenAddr := "" }
    influxDB :=
      { Address := "", Username := "", Password := "", MeasurementPrefix := "",
        Database := "", RetentionPolicy := "", Token := "", Organization := "",
        Bucket := "b", SkipVerifySsl := false, FlushInterval := 2 ^ 64 - 1 } }

/-- A configuration with flush interval 5 seconds. -/
def configFlush5 : Configuration :=
  { server := { ListenAddr := "" }
    influxDB :=
      { Address := "", Username := "", Password := "", MeasurementPrefix := "",
        Database := "", RetentionPolicy := "", Token := "", Organization := "",
        Bucket := "b", SkipVerifySsl := false, FlushInterval := 5 } }

/-- `configBoth` with one measurement-name prefix. -/
def configPrefA : Configuration :=
  { configBoth with influxDB := { configBoth.influxDB with MeasurementPrefix := "pre_" } }

/-- `configBoth` with another measurement-name prefix. -/
def configPrefB : Configuration :=
  { configBoth with influxDB := { configBoth.influxDB with MeasurementPrefix := "other_" } }

/-- The struct holding ten submitted measurement values. -/
def pointOf (w rc p1 p2 pX pc tv nx : Int) (tq : ℚ) (rh : Int) : airGradientData :=
  { Id := "", Ts := 0, Wifi := w, C02 := rc, PM01 := p1, PM02 := p2, PM10 := pX,
    PM003 := pc, TVOC := tv, NOX := nx, Temp := tq, Hum := rh }

/-- A body binding each recognized key once, in schema order. -/
def bodyOf (w rc p1 p2 pX pc tv nx : Int) (tq : ℚ) (rh : Int) : List (String × Json) :=
  [("wifi", Json.num (w : ℚ)), ("rco2", Json.num (rc : ℚ)),
   ("pm01", Json.num (p1 : ℚ)), ("pm02", Json.num (p2 : ℚ)),
   ("pm10", Json.num (pX : ℚ)), ("pm003_count", Json.num (pc : ℚ)),
   ("tvoc_index", Json.num (tv : ℚ)), ("nox_index", Json.num (nx : ℚ)),
   ("atmp", Json.num tq), ("rhum", Json.num (rh : ℚ))]

/-! ### Helper lemmas -/

theorem splitCols_ne_nil (l : List Char) : splitCols l ≠ [] := by
  cases l with
  | nil => simp [splitCols]
  | cons c rest =>
      simp only [splitCols]
      split
      · simp
      · split <;> simp

theorem splitCols_no_colon (l : List Char) (h : ':' ∉ l) : splitCols l = [l] := by
  induction l with
  | nil => rfl
  | cons c rest ih =>
      simp only [List.mem_cons, not_or] at h
      simp only [splitCols, if_neg (fun hc : c = ':' => h.1 hc.symm)]
      rw [ih h.2]

theorem splitCols_append (a b : List Char) (ha : ':' ∉ a) :
    splitCols (a ++ ':' :: b) = a :: splitCols b := by
  induction a with
  | nil => simp [splitCols]
  | cons c rest ih =>
      simp only [List.mem_cons, not_or] at ha
      simp only [List.cons_append, splitCols, List.append_eq,
        if_neg (fun hc : c = ':' => ha.1 hc.symm)]
      rw [ih ha.2]

theorem splitCols_pair (a b : List Char) (ha : ':' ∉ a) (hb : ':' ∉ b) :
    splitCols (a ++ ':' :: b) = [a, b] := by
  rw [splitCols_append a b ha, splitCols_no_colon b hb]

/-- Every enqueued point carries the resolved instance id. -/
theorem enqueued_id (parseTs : Json → Option Nat) (bodyRes : BodyResult)
    (idVar : Option String) (now : Nat) (p : airGradientData)
    (hp : p ∈ (mainHandler parseTs bodyRes idVar now).enqueued) :
    p.Id = resolveInstanceId idVar := by
  cases bodyRes with
  | readError => simp [mainHandler] at hp
  | malformed => simp [mainHandler] at hp
  | parsed j =>
      cases h : decodeBody parseTs j with
      | none => simp [mainHandler, h] at hp
      | some d =>
          simp only [mainHandler, h, List.mem_singleton] at hp
          rw [hp]

/-- Every enqueued point carries the receipt time. -/
theorem enqueued_ts (parseTs : Json → Option Nat) (bodyRes : BodyResult)
    (idVar : Option String) (now : Nat) (p : airGradientData)
    (hp : p ∈ (mainHandler parseTs bodyRes idVar now).enqueued) :
    p.Ts = now := by
  cases bodyRes with
  | readError => simp [mainHandler] at hp
  | malformed => simp [mainHandler] at hp
  | parsed j =>
      cases h : decodeBody parseTs j with
      | none => simp [mainHandler, h] at hp
      | some d =>
          simp only [mainHandler, h, List.mem_singleton] at hp
          rw [hp]

/-- What a successful `InfluxConnect` constructs. -/
theorem influxConnect_ok_iff (config : Configuration) (c : ClientState) :
    InfluxConnect config = Except.ok c ↔
      ∃ dest, influxWriteDest config = some dest ∧
        c = { address := config.influxDB.Address
              auth := influxAuth config
              options :=
                { flushIntervalMs :=
                    1000 * (if config.influxDB.FlushInterval = 0 then 30
                            else config.influxDB.FlushInterval) % UINT_MOD
                  insecureSkipVerify := config.influxDB.SkipVerifySsl }
              organization := config.influxDB.Organization
              writeDest := dest } := by
  unfold InfluxConnect
  cases h : influxWriteDest config with
  | none => simp
  | some dest => simp [eq_comm]

/-- When does the resolved id come out empty: exactly for a present segment
splitting into two components with an empty second one. -/
theorem resolveInstanceId_empty_iff (idVar : Option String) :
    resolveInstanceId idVar = "" ↔
      ∃ s a, idVar = some s ∧ splitCols s.data = [a, []] := by
  cases idVar with
  | none =>
      constructor
      · intro hnull; exact absurd hnull (by decide)
      · rintro ⟨s, a, hs, -⟩; exact Option.noConfusion hs
  | some s =>
      simp only [resolveInstanceId]
      cases h : splitCols s.data with
      | nil => exact absurd h (splitCols_ne_nil s.data)
      | cons x t =>
          cases t with
          | nil =>
              constructor
              · intro hnull
                exact absurd (show ("null" : String) = "" from hnull) (by decide)
              · rintro ⟨s', a, hs', ha⟩
                injection hs' with hss
                rw [← hss, h] at ha
                exact absurd ha (by simp)
          | cons y t2 =>
              cases t2 with
              | nil =>
                  constructor
                  · intro hy
                    have hy' : y = [] := congrArg String.data hy
                    exact ⟨s, x, rfl, by rw [h, hy']⟩
                  · rintro ⟨s', a, hs', ha⟩
                    injection hs' with hss
                    rw [← hss, h] at ha
                    simp only [List.cons.injEq, and_true] at ha
                    rw [ha.2]
              | cons z t3 =>
                  constructor
                  · intro hnull
                    exact absurd (show ("null" : String) = "" from hnull) (by decide)
                  · rintro ⟨s', a, hs', ha⟩
                    injection hs' with hss
                    rw [← hss, h] at ha
                    exact absurd ha (by simp)

/-! ### Claim theorems -/

/-- C1: every point dequeued by the batch writer produces exactly one store
write, with measurement "air_quality", the single tag id = the point's
sensorId, the ten fields wifi, co2, pm1, pm25, pm10, pm003, tvoc, nox,
temp, rel_humidity mapped 1:1 from the point, and the point's timestamp;
fields omitted from the body decode to their zero value; and the example
body posted to /sensors/airgradient:office-1/measures yields exactly one
write with tag id=office-1 and the example field values. -/
theorem batchWriter_maps_point_example :
    (∀ d : airGradientData,
        batchWriter [d] =
          [{ measurement := "air_quality"
             tags := [("id", d.Id)]
             fields :=
               [("wifi", FieldValue.int d.Wifi), ("co2", FieldValue.int d.C02),
                ("pm1", FieldValue.int d.PM01), ("pm25", FieldValue.int d.PM02),
                ("pm10", FieldValue.int d.PM10), ("pm003", FieldValue.int d.PM003),
                ("tvoc", FieldValue.int d.TVOC), ("nox", FieldValue.int d.NOX),
                ("temp", FieldValue.float d.Temp), ("rel_humidity", FieldValue.int d.Hum)]
             timestamp := d.Ts }]) ∧
    (∀ parseTs, decodeBody parseTs (Json.obj []) = some zeroData) ∧
    (∀ parseTs now,
        mainHandler parseTs (BodyResult.parsed exampleBody)
            (some "airgradient:office-1") now =
          { status := 200, body := "", enqueued := [examplePointAt now] } ∧
        batchWriter [examplePointAt now] =
          [{ measurement := "air_quality"
             tags := [("id", "office-1")]
             fields :=
               [("wifi", FieldValue.int (-64)), ("co2", FieldValue.int 419),
                ("pm1", FieldValue.int 4), ("pm25", FieldValue.int 7),
                ("pm10", FieldValue.int 7), ("pm003", FieldValue.int 834),
                ("tvoc", FieldValue.int 3), ("nox", FieldValue.int 2),
                ("temp", FieldValue.float (3207 / 100)), ("rel_humidity", FieldValue.int 56)]
             timestamp := now }]) :=
  ⟨fun _ => rfl, fun _ => rfl, fun _ _ => ⟨rfl, rfl⟩⟩

/-- C2: when the id path segment splits on ':' into exactly two components
the resolved sensor id is the second one (in particular for any segment
`<a>:<b>` with colon-free a and b); with any other number of components, or
an absent segment, it is the sentinel "null"; and every enqueued point
carries the resolved id. -/
theorem resolveInstanceId_spec :
    (∀ a b : List Char, ':' ∉ a → ':' ∉ b →
        resolveInstanceId (some ⟨a ++ ':' :: b⟩) = ⟨b⟩) ∧
    (∀ (s : String) (x y : List Char), splitCols s.data = [x, y] →
        resolveInstanceId (some s) = ⟨y⟩) ∧
    (∀ s : String, (splitCols s.data).length ≠ 2 → resolveInstanceId (some s) = "null") ∧
    resolveInstanceId none = "null" ∧
    (∀ parseTs bodyRes idVar now p,
        p ∈ (mainHandler parseTs bodyRes idVar now).enqueued →
        p.Id = resolveInstanceId idVar) := by
  refine ⟨?_, ?_, ?_, rfl, enqueued_id⟩
  · intro a b ha hb
    simp only [resolveInstanceId]
    rw [splitCols_pair a b ha hb]
  · intro s x y h
    simp only [resolveInstanceId, h]
  · intro s hs
    simp only [resolveInstanceId]
    cases h : splitCols s.data with
    | nil => rfl
    | cons x t =>
        cases t with
        | nil => rfl
        | cons y t2 =>
            cases t2 with
            | nil => exact absurd (by rw [h]; rfl) hs
            | cons z t3 => rfl

/-- C2 witness: the example id segment "airgradient:office-1". -/
theorem resolveInstanceId_spec_w :
    resolveInstanceId (some ⟨"airgradient".data ++ ':' :: "office-1".data⟩) =
      ⟨"office-1".data⟩ :=
  resolveInstanceId_spec.1 "airgradient".data "office-1".data (by decide) (by decide)

/-- C3 counterexample: the body {"wifi":"abc"} is well-formed JSON, yet the
handler responds 400 and enqueues nothing (json.Unmarshal fails on the type
mismatch), refuting "400 if and only if the body cannot be read or is not
well-formed JSON". -/
theorem mainHandler_wellformed_400_cex :
    mainHandler (fun _ => none)
        (BodyResult.parsed (Json.obj [("wifi", Json.str "abc")])) none 0 =
      { status := 400, body := "failed to unmarshal\n", enqueued := [] } :=
  rfl

/-- C3 (amended): the handler responds 400 with a plaintext error and
enqueues nothing if and only if the body cannot be read, is not well-formed
JSON, or is well-formed JSON on which unmarshalling into the schema fails
(non-object top level or type-mismatched fields); otherwise it enqueues
exactly one point and responds 200 with an empty body. -/
theorem mainHandler_response_spec :
    (∀ parseTs bodyRes idVar now,
        ((mainHandler parseTs bodyRes idVar now).status = 400 ∧
          (mainHandler parseTs bodyRes idVar now).enqueued = []) ∨
        ((mainHandler parseTs bodyRes idVar now).status = 200 ∧
          (mainHandler parseTs bodyRes idVar now).body = "" ∧
          ∃ p, (mainHandler parseTs bodyRes idVar now).enqueued = [p])) ∧
    (∀ parseTs bodyRes idVar now,
        (mainHandler parseTs bodyRes idVar now).status = 400 ↔
          bodyRes = BodyResult.readError ∨ bodyRes = BodyResult.malformed ∨
            ∃ j, bodyRes = BodyResult.parsed j ∧ decodeBody parseTs j = none) := by
  constructor
  · intro parseTs bodyRes idVar now
    cases bodyRes with
    | readError => exact Or.inl ⟨rfl, rfl⟩
    | malformed => exact Or.inl ⟨rfl, rfl⟩
    | parsed j =>
        cases h : decodeBody parseTs j with
        | none => exact Or.inl ⟨by simp [mainHandler, h], by simp [mainHandler, h]⟩
        | some d =>
            refine Or.inr ⟨by simp [mainHandler, h], by simp [mainHandler, h],
              { d with Id := resolveInstanceId idVar, Ts := now }, ?_⟩
            simp [mainHandler, h]
  · intro parseTs bodyRes idVar now
    cases bodyRes with
    | readError => simp [mainHandler]
    | malformed => simp [mainHandler]
    | parsed j =>
        cases h : decodeBody parseTs j with
        | none => simp [mainHandler, h]
        | some d => simp [mainHandler, h]

/-- C3 witness: a malformed body yields 400. -/
theorem mainHandler_response_spec_w :
    (mainHandler (fun _ => none) BodyResult.malformed none 0).status = 400 :=
  (mainHandler_response_spec.2 (fun _ => none) BodyResult.malformed none 0).mpr
    (Or.inr (Or.inl rfl))

/-- C4 counterexample: for the id segment "airgradient:" (empty part after
the delimiter) a valid request enqueues a point whose sensorId is the empty
string, refuting "the sensorId is a non-empty string" as universally
stated. -/
theorem mainHandler_emptyId_cex :
    (mainHandler (fun _ => none) (BodyResult.parsed Json.null)
        (some "airgradient:") 0).enqueued = [zeroData] ∧
      zeroData.Id = "" :=
  ⟨rfl, rfl⟩

/-- C4 (amended): an enqueued point's sensorId is non-empty unless the id
path segment splits on ':' into exactly two components whose second is
empty (a segment of the form "<a>:"), in which case the sensorId is the
empty string; the resolved id is empty exactly in that case. -/
theorem sensorId_nonempty_amended :
    (∀ idVar, resolveInstanceId idVar = "" ↔
        ∃ s a, idVar = some s ∧ splitCols s.data = [a, []]) ∧
    (∀ parseTs bodyRes idVar now p,
        p ∈ (mainHandler parseTs bodyRes idVar now).enqueued →
        p.Id ≠ "" ∨ ∃ s a, idVar = some s ∧ splitCols s.data = [a, []]) := by
  refine ⟨resolveInstanceId_empty_iff, ?_⟩
  intro parseTs bodyRes idVar now p hp
  rw [enqueued_id parseTs bodyRes idVar now p hp]
  by_cases hz : resolveInstanceId idVar = ""
  · exact Or.inr ((resolveInstanceId_empty_iff idVar).mp hz)
  · exact Or.inl hz

/-- C4 witness: a point enqueued for the segment "airgradient:office-1" has
a non-empty id. -/
theorem sensorId_nonempty_amended_w :
    ({ zeroData with Id := "office-1" } : airGradientData).Id ≠ "" ∨
      ∃ s a, (some "airgradient:office-1" : Option String) = some s ∧
        splitCols s.data = [a, []] :=
  sensorId_nonempty_amended.2 (fun _ => none) (BodyResult.parsed Json.null)
    (some "airgradient:office-1") 0 { zeroData with Id := "office-1" } (by decide)

/-- C5: the enqueued point's timestamp is always the receipt time `now` the
handler stamps, independent of the body: even though the untagged `Ts`
field can be set by a "Ts" key during unmarshalling (first conjunct), the
handler overwrites it before enqueueing (second conjunct). -/
theorem enqueued_ts_is_receipt :
    (∀ t s, decodeBody (fun _ => some t) (Json.obj [("Ts", Json.str s)]) =
        some { zeroData with Ts := t }) ∧
    (∀ parseTs bodyRes idVar now p,
        p ∈ (mainHandler parseTs bodyRes idVar now).enqueued → p.Ts = now) :=
  ⟨fun _ _ => rfl, enqueued_ts⟩

/-- C5 witness at receipt time 42. -/
theorem enqueued_ts_is_receipt_w :
    ({ zeroData with Id := "null", Ts := 42 } : airGradientData).Ts = 42 :=
  enqueued_ts_is_receipt.2 (fun _ => none) (BodyResult.parsed Json.null) none 42
    { zeroData with Id := "null", Ts := 42 } (by decide)

theorem influxConnect_error_iff (config : Configuration) :
    InfluxConnect config = Except.error InfluxError.writeConfigError ↔
      influxWriteDest config = none := by
  unfold InfluxConnect
  cases h : influxWriteDest config <;> simp

theorem influxWriteDest_none_iff (config : Configuration) :
    influxWriteDest config = none ↔
      config.influxDB.Bucket = "" ∧
        ¬(config.influxDB.Database ≠ "" ∧ config.influxDB.RetentionPolicy ≠ "") := by
  unfold influxWriteDest
  split_ifs with h1 h2 <;> simp_all

/-- C6: `InfluxConnect` returns the configuration error — and `main` then
exits fatally, before any listener is bound — exactly when the bucket is
empty and database+retentionPolicy are not both set; a non-empty bucket is
the write destination even when database and retention policy are also
set; with an empty bucket and both database and retention policy set the
destination is "database/retentionPolicy". -/
theorem influxConnect_writeDest_spec :
    ∀ config : Configuration,
      ((InfluxConnect config = Except.error InfluxError.writeConfigError ∧
          mainStartup (Except.ok config) =
            StartupResult.fatalInflux InfluxError.writeConfigError ∧
          ∀ c addr, mainStartup (Except.ok config) ≠ StartupResult.serving c addr) ↔
        (config.influxDB.Bucket = "" ∧
          ¬(config.influxDB.Database ≠ "" ∧ config.influxDB.RetentionPolicy ≠ ""))) ∧
      (config.influxDB.Bucket ≠ "" →
        ∃ c, InfluxConnect config = Except.ok c ∧
          c.writeDest = config.influxDB.Bucket) ∧
      (config.influxDB.Bucket = "" → config.influxDB.Database ≠ "" →
        config.influxDB.RetentionPolicy ≠ "" →
        ∃ c, InfluxConnect config = Except.ok c ∧
          c.writeDest =
            config.influxDB.Database ++ "/" ++ config.influxDB.RetentionPolicy) := by
  intro config
  refine ⟨⟨fun h => ?_, fun h => ?_⟩, fun hb => ?_, fun hb hdb hrp => ?_⟩
  · exact (influxWriteDest_none_iff config).mp ((influxConnect_error_iff config).mp h.1)
  · have he : InfluxConnect config = Except.error InfluxError.writeConfigError :=
      (influxConnect_error_iff config).mpr ((influxWriteDest_none_iff config).mpr h)
    refine ⟨he, by simp [mainStartup, he], fun c addr => by simp [mainStartup, he]⟩
  · have hd : influxWriteDest config = some config.influxDB.Bucket := by
      unfold influxWriteDest; rw [if_pos hb]
    exact ⟨_, by unfold InfluxConnect; rw [hd], rfl⟩
  · have hd : influxWriteDest config =
        some (config.influxDB.Database ++ "/" ++ config.influxDB.RetentionPolicy) := by
      unfold influxWriteDest
      rw [if_neg (by simp [hb]), if_pos ⟨hdb, hrp⟩]
    exact ⟨_, by unfold InfluxConnect; rw [hd], rfl⟩

/-- C6 witness: a v1-style configuration (no bucket, database+retention
policy set) connects with destination "mydb/autogen". -/
theorem influxConnect_writeDest_spec_w :
    ∃ c, InfluxConnect configV1 = Except.ok c ∧ c.writeDest = "mydb" ++ "/" ++ "autogen" :=
  (influxConnect_writeDest_spec configV1).2.2 rfl (by decide) (by decide)

/-- C7: a set token is the authentication credential even when username and
password are also set; with no token and both username and password set the
credential is "username:password". -/
theorem influxAuth_precedence :
    ∀ config : Configuration,
      (config.influxDB.Token ≠ "" →
        influxAuth config = config.influxDB.Token ∧
        ∀ c, InfluxConnect config = Except.ok c → c.auth = config.influxDB.Token) ∧
      (config.influxDB.Token = "" → config.influxDB.Username ≠ "" →
        config.influxDB.Password ≠ "" →
        influxAuth config = config.influxDB.Username ++ ":" ++ config.influxDB.Password ∧
        ∀ c, InfluxConnect config = Except.ok c →
          c.auth = config.influxDB.Username ++ ":" ++ config.influxDB.Password) := by
  intro config
  have hauth : ∀ c, InfluxConnect config = Except.ok c → c.auth = influxAuth config := by
    intro c hc
    rcases (influxConnect_ok_iff config c).mp hc with ⟨dest, -, rfl⟩
    rfl
  constructor
  · intro ht
    have h1 : influxAuth config = config.influxDB.Token := by
      unfold influxAuth; rw [if_pos ht]
    exact ⟨h1, fun c hc => (hauth c hc).trans h1⟩
  · intro ht hu hp
    have h1 : influxAuth config =
        config.influxDB.Username ++ ":" ++ config.influxDB.Password := by
      unfold influxAuth
      rw [if_neg (by simp [ht]), if_pos ⟨hu, hp⟩]
    exact ⟨h1, fun c hc => (hauth c hc).trans h1⟩

/-- C7 witness: with both token and username/password set, the token is
selected. -/
theorem influxAuth_precedence_w : influxAuth configBoth = "mytoken" :=
  ((influxAuth_precedence configBoth).1 (by decide)).1

/-- C8 counterexample: with FlushInterval = 2^64 - 1 (a valid Go uint) the
configured client flush option is (1000 * (2^64 - 1)) mod 2^64 =
2^64 - 1000, not 1000 times the interval: the uint product wraps. -/
theorem flushInterval_wrap_cex :
    ∃ c, InfluxConnect configFlushMax = Except.ok c ∧
      c.options.flushIntervalMs = 2 ^ 64 - 1000 ∧
      c.options.flushIntervalMs ≠ 1000 * (2 ^ 64 - 1) := by
  refine ⟨_, rfl, by decide, by decide⟩

/-- C8 (amended): a zero (or unset) flush interval is defaulted to 30
seconds (client option 30000 ms); otherwise the client option is
1000 * FlushInterval reduced modulo 2^64 (Go uint multiplication) — equal
to 1000 times the configured seconds whenever that product does not
overflow a Go uint. -/
theorem flushInterval_spec_amended :
    ∀ config c, InfluxConnect config = Except.ok c →
      (config.influxDB.FlushInterval = 0 → c.options.flushIntervalMs = 30000) ∧
      c.options.flushIntervalMs =
        1000 * (if config.influxDB.FlushInterval = 0 then 30
                else config.influxDB.FlushInterval) % UINT_MOD ∧
      (config.influxDB.FlushInterval ≠ 0 →
        1000 * config.influxDB.FlushInterval < UINT_MOD →
        c.options.flushIntervalMs = 1000 * config.influxDB.FlushInterval) := by
  intro config c hc
  rcases (influxConnect_ok_iff config c).mp hc with ⟨dest, -, rfl⟩
  refine ⟨fun h0 => ?_, rfl, fun hne hlt => ?_⟩
  · show 1000 * (if config.influxDB.FlushInterval = 0 then 30
        else config.influxDB.FlushInterval) % UINT_MOD = 30000
    rw [if_pos h0]
    decide
  · show 1000 * (if config.influxDB.FlushInterval = 0 then 30
        else config.influxDB.FlushInterval) % UINT_MOD =
      1000 * config.influxDB.FlushInterval
    rw [if_neg hne, Nat.mod_eq_of_lt hlt]

/-- C8 witness: a 5-second interval configures 5000 ms. -/
theorem flushInterval_spec_amended_w :
    ∃ c, InfluxConnect configFlush5 = Except.ok c ∧ c.options.flushIntervalMs = 5000 :=
  ⟨_, rfl, (flushInterval_spec_amended configFlush5 _ rfl).2.2 (by decide) (by decide)⟩

theorem decodeIntField_intCast (w : Int) (d : airGradientData)
    (set : Int → airGradientData) (h1 : INT64_MIN ≤ w) (h2 : w ≤ INT64_MAX) :
    decodeIntField (Json.num (w : ℚ)) d set = some (set w) := by
  simp [decodeIntField, Rat.den_intCast, Rat.num_intCast, h1, h2]

theorem setField_wifi (parseTs : Json → Option Nat) (d : airGradientData) (v : Json) :
    setField parseTs d "wifi" v = decodeIntField v d (fun n => { d with Wifi := n }) := rfl

theorem setField_rco2 (parseTs : Json → Option Nat) (d : airGradientData) (v : Json) :
    setField parseTs d "rco2" v = decodeIntField v d (fun n => { d with C02 := n }) := rfl

theorem setField_pm01 (parseTs : Json → Option Nat) (d : airGradientData) (v : Json) :
    setField parseTs d "pm01" v = decodeIntField v d (fun n => { d with PM01 := n }) := rfl

theorem setField_pm02 (parseTs : Json → Option Nat) (d : airGradientData) (v : Json) :
    setField parseTs d "pm02" v = decodeIntField v d (fun n => { d with PM02 := n }) := rfl

theorem setField_pm10 (parseTs : Json → Option Nat) (d : airGradientData) (v : Json) :
    setField parseTs d "pm10" v = decodeIntField v d (fun n => { d with PM10 := n }) := rfl

theorem setField_pm003 (parseTs : Json → Option Nat) (d : airGradientData) (v : Json) :
    setField parseTs d "pm003_count" v =
      decodeIntField v d (fun n => { d with PM003 := n }) := rfl

theorem setField_tvoc (parseTs : Json → Option Nat) (d : airGradientData) (v : Json) :
    setField parseTs d "tvoc_index" v =
      decodeIntField v d (fun n => { d with TVOC := n }) := rfl

theorem setField_nox (parseTs : Json → Option Nat) (d : airGradientData) (v : Json) :
    setField parseTs d "nox_index" v =
      decodeIntField v d (fun n => { d with NOX := n }) := rfl

theorem setField_atmp (parseTs : Json → Option Nat) (d : airGradientData) (v : Json) :
    setField parseTs d "atmp" v = decodeFloatField v d (fun q => { d with Temp := q }) := rfl

theorem setField_rhum (parseTs : Json → Option Nat) (d : airGradientData) (v : Json) :
    setField parseTs d "rhum" v = decodeIntField v d (fun n => { d with Hum := n }) := rfl

/-- C9: decoding a body that binds each recognized key once to a numeric
value (integral and int64-representable for the nine integer fields, any
numeric value for the float field) succeeds, and re-encoding the
recognized fields returns exactly the submitted values. -/
theorem decode_encode_roundtrip :
    ∀ (parseTs : Json → Option Nat) (w rc p1 p2 pX pc tv nx : Int) (tq : ℚ) (rh : Int),
      inInt64 w → inInt64 rc → inInt64 p1 → inInt64 p2 → inInt64 pX → inInt64 pc →
      inInt64 tv → inInt64 nx → inInt64 rh →
      decodeBody parseTs (Json.obj (bodyOf w rc p1 p2 pX pc tv nx tq rh)) =
        some (pointOf w rc p1 p2 pX pc tv nx tq rh) ∧
      encodeFields (pointOf w rc p1 p2 pX pc tv nx tq rh) =
        bodyOf w rc p1 p2 pX pc tv nx tq rh := by
  intro parseTs w rc p1 p2 pX pc tv nx tq rh hw hrc hp1 hp2 hpX hpc htv hnx hrh
  refine ⟨?_, rfl⟩
  simp only [decodeBody, bodyOf, pointOf, decodeFields, setField_wifi, setField_rco2,
    setField_pm01, setField_pm02, setField_pm10, setField_pm003, setField_tvoc,
    setField_nox, setField_atmp, setField_rhum, decodeFloatField,
    decodeIntField_intCast w _ _ hw.1 hw.2, decodeIntField_intCast rc _ _ hrc.1 hrc.2,
    decodeIntField_intCast p1 _ _ hp1.1 hp1.2, decodeIntField_intCast p2 _ _ hp2.1 hp2.2,
    decodeIntField_intCast pX _ _ hpX.1 hpX.2, decodeIntField_intCast pc _ _ hpc.1 hpc.2,
    decodeIntField_intCast tv _ _ htv.1 htv.2, decodeIntField_intCast nx _ _ hnx.1 hnx.2,
    decodeIntField_intCast rh _ _ hrh.1 hrh.2]
  rfl

/-- C9 witness at the example values. -/
theorem decode_encode_roundtrip_w :
    decodeBody (fun _ => none) (Json.obj (bodyOf (-64) 419 4 7 7 834 3 2 (3207 / 100) 56)) =
      some (pointOf (-64) 419 4 7 7 834 3 2 (3207 / 100) 56) ∧
    encodeFields (pointOf (-64) 419 4 7 7 834 3 2 (3207 / 100) 56) =
      bodyOf (-64) 419 4 7 7 834 3 2 (3207 / 100) 56 :=
  decode_encode_roundtrip (fun _ => none) (-64) 419 4 7 7 834 3 2 (3207 / 100) 56
    (by decide) (by decide) (by decide) (by decide) (by decide) (by decide) (by decide)
    (by decide) (by decide)

/-- C10: the MeasurementPrefix configuration field is loaded but never read
afterwards: two configurations differing only in it construct identical
store clients and identical startup states; the per-point write never
depends on the configuration, and its measurement is exactly
"air_quality" (no prefix is ever applied). -/
theorem measurementPrefix_invariance :
    (∀ c1 c2 : Configuration, c1.server = c2.server →
        { c1.influxDB with MeasurementPrefix := "" } =
          { c2.influxDB with MeasurementPrefix := "" } →
        InfluxConnect c1 = InfluxConnect c2 ∧
          mainStartup (Except.ok c1) = mainStartup (Except.ok c2)) ∧
    (∀ d, (toInfluxWrite d).measurement = "air_quality") := by
  refine ⟨?_, fun d => rfl⟩
  rintro ⟨s1, f1⟩ ⟨s2, f2⟩ hs hf
  cases f1
  cases f2
  cases hs
  simp only [InfluxDB.mk.injEq] at hf
  obtain ⟨rfl, rfl, rfl, -, rfl, rfl, rfl, rfl, rfl, rfl, rfl⟩ := hf
  exact ⟨rfl, rfl⟩

/-- C10 witness: two configurations differing only in the prefix yield the
same client and startup state. -/
theorem measurementPrefix_invariance_w :
    InfluxConnect configPrefA = InfluxConnect configPrefB ∧
      mainStartup (Except.ok configPrefA) = mainStartup (Except.ok configPrefB) :=
  measurementPrefix_invariance.1 configPrefA configPrefB rfl rfl

end AirGradient
